import Mathlib

/-!
Verification of the `secretcli` test-automation client
(`src/packages/secretcli/src/secretcli.rs`).

The repository shells out to an external chain daemon (`secretd`), retries
on non-empty stderr, parses stdout as JSON, and keeps a small on-disk cache
of deployed-contract metadata.  We embed the client shallowly:

* external process invocations become an oracle `Nat → CmdOutput`
  (the k-th invocation's captured stdout/stderr) for the low-level runner,
  and a typed `Daemon` oracle for the composition-level flows;
* the filesystem becomes an explicit `FS` state (file contents plus
  knobs saying which operations fail), threaded through `save_contract`,
  `load_cached_contract` and `test_inst_init`;
* a Rust panic (`unwrap`/`expect`, out-of-bounds `Vec` index) is modelled
  by returning `none` from the enclosing function;
* `serde_json` is modelled by a small `Json` value type with an explicit
  encoder/decoder for `NetContract`; JSON parsing of raw daemon stdout is
  an abstract parameter `parse : String → Option Json` (`none` models a
  deserialization error).
-/

/-- Modelled from the spec: `NetContract` lives in the `cli_types` module,
which is not part of the sources; the spec gives it four string fields
`label`, `id`, `address`, `code_hash`, all defaulting to the empty string
until populated. -/
structure NetContract where
  label : String
  id : String
  address : String
  code_hash : String
deriving DecidableEq

/-- Modelled from the spec: `Attribute` is `{msg_key: string, value: string}`. -/
structure Attribute where
  msg_key : String
  value : String
deriving DecidableEq

/-- Modelled from the spec: `Event` is an ordered sequence of attributes. -/
structure Event where
  attributes : List Attribute
deriving DecidableEq

/-- Modelled from the spec: `Log` is an ordered sequence of events. -/
structure Log where
  events : List Event
deriving DecidableEq

/-- Modelled from the spec: `TxResponse` is `{txhash: string, ...}`; only
`txhash` is ever read by the client. -/
structure TxResponse where
  txhash : String
deriving DecidableEq

/-- Modelled from the spec: `TxQuery` is `{txhash, raw_log, logs}`. -/
structure TxQuery where
  txhash : String
  raw_log : String
  logs : List Log
deriving DecidableEq

/-- Modelled from the spec: `TxCompute` is the decrypted execution result;
its internal shape is irrelevant to the client, so one opaque string field. -/
structure TxCompute where
  output : String
deriving DecidableEq

/-- Modelled from the spec: `ListCodeResponse` is `{id: integer, data_hash: string, ...}`. -/
structure ListCodeResponse where
  id : Nat
  data_hash : String
deriving DecidableEq

/-- Errors surfaced by the typed daemon helpers (deserialization failures and
daemon-side failures); the claims only need them to be distinguishable values. -/
inductive SErr where
  | deser (msg : String)
deriving DecidableEq

/-- Result of one external process invocation: captured stdout and stderr. -/
structure CmdOutput where
  stdout : String
  stderr : String
deriving DecidableEq

/-- A small JSON value type standing in for `serde_json::Value`. -/
inductive Json where
  | str (s : String)
  | num (n : Int)
  | bool (b : Bool)
  | null
  | arr (elems : List Json)
  | obj (fields : List (String × Json))

/-- Character-list prefix test (used to model Rust's `str::contains`). -/
def chPre : List Char → List Char → Bool
  | [], _ => true
  | _ :: _, [] => false
  | a :: as, b :: bs => a = b && chPre as bs

/-- Character-list infix test (used to model Rust's `str::contains`). -/
def chSub (needle : List Char) : List Char → Bool
  | [] => chPre needle []
  | b :: bs => chPre needle (b :: bs) || chSub needle bs

/-- Model of Rust's `str::contains` on substrings. -/
def strContains (s pat : String) : Bool :=
  chSub pat.data s.data

/-! ## Process Runner (`secretcli_run`, lines 42-64) -/

/-- `secretcli_run` appends the fixed output-format flag to the command
before invoking the daemon (line 45 of the source). -/
def secretcli_args (command : List String) : List String :=
  command ++ ["--output", "json"]

/-- The retry loop of `secretcli_run` (lines 54-61): starting from the
current output `cur`, with `used` invocations performed so far, loop at most
`fuel` more times; while stderr is non-empty, sleep (not modelled: real
time) and re-invoke.  Returns the final output and the total number of
invocations performed.  `invoke k` is the k-th invocation (0-based). -/
def retryLoop (invoke : Nat → CmdOutput) : Nat → CmdOutput → Nat → CmdOutput × Nat
  | 0, cur, used => (cur, used)
  | fuel + 1, cur, used =>
      if cur.stderr = "" then (cur, used)
      else retryLoop invoke fuel (invoke used) (used + 1)

/-- Model of `secretcli_run` (lines 42-64): one initial invocation, then the
retry loop with ceiling 20, then the last stdout is parsed as JSON
(`parse` models `serde_json::from_str`; `none` is a deserialization error).
Returns the parse result together with the total number of invocations. -/
def secretcli_run (invoke : Nat → CmdOutput) (parse : String → Option Json) :
    Option Json × Nat :=
  let (res, n) := retryLoop invoke 20 (invoke 0) 1
  (parse res.stdout, n)

/-! ## store_contract argument list (lines 76-103) -/

/-- The argument vector built by `store_contract` (lines 82-97): the base
vector already ends in `-y`, and when a backend is given the
`--keyring-backend <backend>` pair is pushed after it. -/
def store_contract_command (contract : String) (user gas backend : Option String) :
    List String :=
  let command_arr :=
    ["tx", "compute", "store", contract,
     "--from", user.getD "a", "--gas", gas.getD "10000000", "-y"]
  match backend with
  | some b => command_arr ++ ["--keyring-backend", b]
  | none => command_arr

/-- The full argument sequence the daemon receives for a store: the
`store_contract` vector plus the output-format flag appended by
`secretcli_run`. -/
def store_contract_args (contract : String) (user gas backend : Option String) :
    List String :=
  secretcli_args (store_contract_command contract user gas backend)

/-! ## Contract cache (lines 559-589) -/

/-- Contents of one cache-file slot as seen by the model. -/
inductive FileData where
  | absent
  | unreadable
  | notJson
  | json (v : Json)

/-- Explicit filesystem state: file contents keyed by path, whether the
cache directory exists, and environment knobs saying which operations
fail (directory creation, file creation, writing). -/
structure FS where
  files : String → FileData
  dirExists : Bool
  createDirFails : Bool
  createFileFails : String → Bool
  writeFails : String → Bool

/-- `CONTRACT_CACHE_DIR` (line 559). -/
def CONTRACT_CACHE_DIR : String := "../cached_contracts/"

/-- Cache-file path for a name: `CONTRACT_CACHE_DIR.to_owned() + name`. -/
def cachePath (name : String) : String := CONTRACT_CACHE_DIR ++ name

/-- Errors of `load_cached_contract`: the explicit "no cached contract
found" error (line 570), a `File::open` failure (missing file, permissions),
and a `serde_json::from_reader` failure. -/
inductive LoadErr where
  | noCachedContract
  | openFailed
  | parseFailed
deriving DecidableEq

/-- serde encoding of a `NetContract` (derive-Serialize order of fields). -/
def netContractToJson (c : NetContract) : Json :=
  .obj [("label", .str c.label), ("id", .str c.id),
        ("address", .str c.address), ("code_hash", .str c.code_hash)]

/-- Key lookup in a JSON object's field list (first match). -/
def jsonLookup (key : String) : List (String × Json) → Option Json
  | [] => none
  | (k, v) :: rest => if k = key then some v else jsonLookup key rest

/-- serde decoding of a `NetContract`: all four fields must be present as
strings. -/
def netContractFromJson : Json → Option NetContract
  | .obj fields =>
      match jsonLookup "label" fields, jsonLookup "id" fields,
            jsonLookup "address" fields, jsonLookup "code_hash" fields with
      | some (.str l), some (.str i), some (.str a), some (.str h) =>
          some ⟨l, i, a, h⟩
      | _, _, _, _ => none
  | _ => none

/-- Model of `load_cached_contract` (lines 560-579): without a name, fail
immediately with the "no cached contract found" error; with a name, open
`CONTRACT_CACHE_DIR + name` (propagating an open failure) and deserialize a
`NetContract` from it (propagating a parse failure). -/
def load_cached_contract (name : Option String) (fs : FS) :
    Except LoadErr NetContract :=
  match name with
  | none => .error .noCachedContract
  | some n =>
      match fs.files (cachePath n) with
      | .absent => .error .openFailed
      | .unreadable => .error .openFailed
      | .notJson => .error .parseFailed
      | .json v =>
          match netContractFromJson v with
          | some c => .ok c
          | none => .error .parseFailed

/-- The file paths on which `load_cached_contract` attempts `File::open`:
none when no name is given (the `None` arm at line 570 touches no file),
exactly the cache path otherwise. -/
def load_file_reads (name : Option String) : List String :=
  match name with
  | none => []
  | some n => [cachePath n]

/-- The filesystem after the `create_dir` step of `save_contract`
(lines 582-585): if the directory is missing, attempt to create it and
ignore the result. -/
def dirEnsured (fs : FS) : FS :=
  if fs.dirExists then fs else { fs with dirExists := !fs.createDirFails }

/-- The filesystem after a fully successful `save_contract`: the cache file
holds the JSON encoding of the contract. -/
def saveOkFS (fs : FS) (name : String) (c : NetContract) : FS :=
  { dirEnsured fs with
    files := fun p =>
      if p = cachePath name then FileData.json (netContractToJson c)
      else (dirEnsured fs).files p }

/-- Model of `save_contract` (lines 581-589): ensure the cache directory
(creation failure ignored, line 584), then `File::create(path).unwrap()` —
a creation failure panics, modelled by `none` (line 587) — then
`serde_json::to_writer` with its result ignored (line 588): a write failure
leaves a file that is not valid JSON. -/
def save_contract (name : String) (c : NetContract) (fs : FS) : Option FS :=
  let fs1 := dirEnsured fs
  if fs1.createFileFails (cachePath name) then none
  else if fs1.writeFails (cachePath name) then
    some { fs1 with
           files := fun p =>
             if p = cachePath name then FileData.notJson else fs1.files p }
  else some (saveOkFS fs name c)

/-! ## Composition-level flows (`test_inst_init`, `test_contract_handle`) -/

/-- The attribute scan used by `test_inst_init` (lines 347-352 and 363-368):
walk the attributes in order, and on the first one whose `msg_key` matches,
take its value and stop; otherwise keep the initial value (the empty
string the field was initialized with). -/
def scanAttr (key init : String) : List Attribute → String
  | [] => init
  | a :: rest => if a.msg_key = key then a.value else scanAttr key init rest

/-- The code-hash scan used by `test_inst_init` (lines 372-377): first
listed code whose numeric id printed as a string equals the contract's id
wins; otherwise keep the initial value. -/
def scanCode (id init : String) : List ListCodeResponse → String
  | [] => init
  | item :: rest =>
      if Nat.repr item.id = id then item.data_hash else scanCode id init rest

/-- Typed daemon oracle for `test_inst_init`: the responses to the
`store_contract` call, to `query_hash` (keyed by transaction hash), to the
`instantiate_contract` call inside `test_init`, and to `list_code`.  Each
consultation is one daemon invocation of `secretcli_run`. -/
structure Daemon where
  store : Except SErr TxResponse
  query : String → Except SErr TxQuery
  inst : Except SErr TxResponse
  listCode : Except SErr (List ListCodeResponse)

/-- The `NetContract` assembled by the fresh-deployment path of
`test_inst_init` (lines 340-377): the `code_id` scan over the store query's
first-log-first-event attributes, the `contract_address` scan over the init
query's, and the code-hash scan over the code list, each leaving the
initial empty string when nothing matches. -/
def freshContract (label : String) (storeAttrs instAttrs : List Attribute)
    (lst : List ListCodeResponse) : NetContract :=
  let id := scanAttr "code_id" "" storeAttrs
  { label := label
    id := id
    address := scanAttr "contract_address" "" instAttrs
    code_hash := scanCode id "" lst }

/-- The final step of `test_inst_init` (lines 378-382): save the assembled
contract when a name was supplied (the save may panic), else just report
(the no-name arm only prints); either way five daemon calls were made. -/
def finishSave (name : Option String) (contract : NetContract) (fs : FS) :
    Option (Except SErr NetContract × FS × Nat) :=
  match name with
  | some n =>
    match save_contract n contract fs with
    | none => none
    | some fs2 => some (.ok contract, fs2, 5)
  | none => some (.ok contract, fs, 5)

/-- Model of `test_inst_init` (lines 324-385).  Returns `none` on a Rust
panic (an out-of-bounds `logs[0]`/`events[0]` index, or the `unwrap` inside
`save_contract`); otherwise the result (cached or fresh contract, or a
propagated daemon/deserialization error), the final filesystem, and the
number of daemon invocations performed.  The `msg`, `sender` and gas
arguments only select daemon responses and are absorbed into the oracle;
the `println` diagnostics do not affect state and are not modelled here. -/
def test_inst_init (d : Daemon) (label : String) (name : Option String)
    (fs : FS) : Option (Except SErr NetContract × FS × Nat) :=
  match load_cached_contract name fs with
  | .ok c => some (.ok c, fs, 0)
  | .error _ =>
    match d.store with
    | .error e => some (.error e, fs, 1)
    | .ok store_response =>
      match d.query store_response.txhash with
      | .error e => some (.error e, fs, 2)
      | .ok store_query =>
        match store_query.logs with
        | [] => none
        | l0 :: _ =>
          match l0.events with
          | [] => none
          | e0 :: _ =>
            match d.inst with
            | .error e => some (.error e, fs, 3)
            | .ok init_response =>
              match d.query init_response.txhash with
              | .error e => some (.error e, fs, 4)
              | .ok init_query =>
                match init_query.logs with
                | [] => none
                | m0 :: _ =>
                  match m0.events with
                  | [] => none
                  | f0 :: _ =>
                    match d.listCode with
                    | .error e => some (.error e, fs, 5)
                    | .ok listed =>
                      finishSave name
                        (freshContract label e0.attributes f0.attributes
                          listed) fs

/-- Typed daemon oracle for `test_contract_handle`: responses to
`execute_contract`, to `compute_hash`, and to `query_hash`. -/
structure HandleDaemon where
  exec : Except SErr TxResponse
  computeQ : String → Except SErr TxCompute
  queryTx : String → Except SErr TxQuery

/-- The raw-log marker of an on-chain execution failure. -/
def failMsg : String := "failed to execute message"

/-- Model of `test_contract_handle` (lines 474-497): execute, fetch the
compute result and the full query for the hash, and if the query's raw_log
contains the failure marker, print two diagnostic lines (returned here as
the list of printed lines) — the computed and queried results are returned
regardless. -/
def test_contract_handle (d : HandleDaemon) :
    Except SErr ((TxCompute × TxQuery) × List String) :=
  match d.exec with
  | .error e => .error e
  | .ok tx =>
    match d.computeQ tx.txhash with
    | .error e => .error e
    | .ok computed_response =>
      match d.queryTx tx.txhash with
      | .error e => .error e
      | .ok queried_response =>
        let printed :=
          if strContains queried_response.raw_log failMsg then
            ["Raw ;pg " ++ queried_response.raw_log,
             "Tx Hash (call secretd q compute tx <hash> to see encrypted error) "
               ++ queried_response.txhash]
          else []
        .ok ((computed_response, queried_response), printed)

/-! ## Concrete instances used by witnesses -/

/-- A filesystem with every operation failing to create files: `File::create`
always fails. -/
def fsFlaky : FS :=
  { files := fun _ => .absent, dirExists := true, createDirFails := false
    createFileFails := fun _ => true, writeFails := fun _ => false }

/-- A healthy filesystem with an empty cache. -/
def fsGood : FS :=
  { files := fun _ => .absent, dirExists := true, createDirFails := false
    createFileFails := fun _ => false, writeFails := fun _ => false }

/-- A filesystem whose cache file for name `nm` exists but does not parse. -/
def fsStale : FS :=
  { files := fun p => if p = cachePath "nm" then FileData.notJson else FileData.absent
    dirExists := true, createDirFails := false
    createFileFails := fun _ => false, writeFails := fun _ => false }

/-- Store-query event carrying a `code_id` attribute first. -/
def evW : Event := ⟨[⟨"code_id", "7"⟩, ⟨"other", "x"⟩]⟩

/-- Init-query event carrying a `contract_address` attribute. -/
def evW2 : Event := ⟨[⟨"contract_address", "addr1"⟩]⟩

/-- Store-transaction query result used by witnesses. -/
def storeQW : TxQuery := ⟨"h1", "", [⟨[evW]⟩]⟩

/-- Instantiate-transaction query result used by witnesses. -/
def initQW : TxQuery := ⟨"h2", "", [⟨[evW2]⟩]⟩

/-- A daemon oracle for which the whole fresh-deployment path succeeds. -/
def dW : Daemon :=
  { store := .ok ⟨"h1"⟩
    query := fun h => if h = "h1" then .ok storeQW else .ok initQW
    inst := .ok ⟨"h2"⟩
    listCode := .ok [⟨7, "HASH7"⟩] }

/-- The contract the fresh path assembles from `dW`'s responses. -/
def cW3 : NetContract := ⟨"lab", "7", "addr1", "HASH7"⟩

/-- Store-query event with no `code_id` attribute. -/
def evN1 : Event := ⟨[⟨"height", "1"⟩]⟩

/-- Init-query event with no `contract_address` attribute. -/
def evN2 : Event := ⟨[⟨"signer", "s"⟩]⟩

/-- A daemon oracle whose queries report attributes under other keys. -/
def dW7 : Daemon :=
  { store := .ok ⟨"h1"⟩
    query := fun h =>
      if h = "h1" then .ok ⟨"h1", "", [⟨[evN1]⟩]⟩ else .ok ⟨"h2", "", [⟨[evN2]⟩]⟩
    inst := .ok ⟨"h2"⟩
    listCode := .ok [⟨7, "HASH7"⟩] }

/-- A query result whose raw_log reports an on-chain execution failure. -/
def qFail : TxQuery := ⟨"HX", "failed to execute message: x", []⟩

/-- An execute-flow daemon oracle reporting an on-chain execution failure. -/
def hdW : HandleDaemon :=
  { exec := .ok ⟨"HX"⟩
    computeQ := fun _ => .ok ⟨"res"⟩
    queryTx := fun _ => .ok qFail }

/-- A `NetContract` used as a round-trip witness. -/
def cW : NetContract := ⟨"lbl", "7", "addr", "hash"⟩

/-! ## Helper lemmas -/

theorem dirEnsured_createFileFails (fs : FS) :
    (dirEnsured fs).createFileFails = fs.createFileFails := by
  unfold dirEnsured; split <;> rfl

theorem dirEnsured_writeFails (fs : FS) :
    (dirEnsured fs).writeFails = fs.writeFails := by
  unfold dirEnsured; split <;> rfl

/-- When creating the cache file succeeds, `save_contract` does not panic. -/
theorem save_contract_no_panic (n : String) (c : NetContract) (fs : FS)
    (hcf : fs.createFileFails (cachePath n) = false) :
    ∃ fs2, save_contract n c fs = some fs2 := by
  simp only [save_contract, dirEnsured_createFileFails, dirEnsured_writeFails,
    hcf, Bool.false_eq_true, if_false]
  split
  · exact ⟨_, rfl⟩
  · exact ⟨_, rfl⟩

/-- When both creating and writing the cache file succeed, `save_contract`
produces exactly the filesystem with the contract's JSON in the cache
slot. -/
theorem save_contract_ok (n : String) (c : NetContract) (fs : FS)
    (hcf : fs.createFileFails (cachePath n) = false)
    (hwf : fs.writeFails (cachePath n) = false) :
    save_contract n c fs = some (saveOkFS fs n c) := by
  simp [save_contract, dirEnsured_createFileFails, dirEnsured_writeFails,
    hcf, hwf]

theorem netContract_json_roundtrip (c : NetContract) :
    netContractFromJson (netContractToJson c) = some c := by
  cases c; rfl

/-- After a non-panicking `save_contract` on a filesystem whose write for the
cache path succeeds, loading the same name yields the saved contract. -/
theorem load_after_save_ok (n : String) (c : NetContract) (fs fs2 : FS)
    (hwf : fs.writeFails (cachePath n) = false)
    (hsave : save_contract n c fs = some fs2) :
    load_cached_contract (some n) fs2 = .ok c := by
  simp only [save_contract, dirEnsured_createFileFails, dirEnsured_writeFails,
    hwf] at hsave
  by_cases hcf : fs.createFileFails (cachePath n) = true
  · simp [hcf] at hsave
  · simp [hcf] at hsave
    subst hsave
    simp [load_cached_contract, saveOkFS, netContract_json_roundtrip]

/-- The attribute scan leaves the initial value when no attribute has the
sought key. -/
theorem scanAttr_not_found (key init : String) (attrs : List Attribute)
    (h : ∀ a ∈ attrs, a.msg_key ≠ key) : scanAttr key init attrs = init := by
  induction attrs with
  | nil => rfl
  | cons a rest ih =>
    rw [scanAttr, if_neg (h a (by simp))]
    exact ih (fun b hb => h b (by simp [hb]))

/-- If stderr is non-empty on every invocation, the retry loop consumes all
its fuel, performing one further invocation per unit of fuel. -/
theorem retryLoop_all_fail (invoke : Nat → CmdOutput)
    (h : ∀ k, (invoke k).stderr ≠ "") :
    ∀ fuel used, retryLoop invoke fuel (invoke used) (used + 1) =
      (invoke (used + fuel), used + fuel + 1) := by
  intro fuel
  induction fuel with
  | zero => intro used; simp [retryLoop]
  | succ f ih =>
    intro used
    rw [retryLoop, if_neg (h used), ih (used + 1)]
    have hx : used + 1 + f = used + (f + 1) := by omega
    rw [hx]

/-- Characterization of the fresh-deployment path of `test_inst_init`: when
the cache misses and every daemon call succeeds with well-formed logs, the
flow performs all five daemon calls, assembles `freshContract`, and saves it
exactly when a name was supplied. -/
theorem test_inst_init_fresh_spec (d : Daemon) (label : String)
    (name : Option String) (fs : FS) (err : LoadErr) (tr : TxResponse)
    (qs : TxQuery) (l0 : Log) (ls : List Log) (e0 : Event) (es : List Event)
    (ti : TxResponse) (qi : TxQuery) (m0 : Log) (ms : List Log) (f0 : Event)
    (gs : List Event) (lst : List ListCodeResponse)
    (hload : load_cached_contract name fs = .error err)
    (hs : d.store = .ok tr) (hq : d.query tr.txhash = .ok qs)
    (hlogs : qs.logs = l0 :: ls) (hev : l0.events = e0 :: es)
    (hi : d.inst = .ok ti) (hqi : d.query ti.txhash = .ok qi)
    (hlogs2 : qi.logs = m0 :: ms) (hev2 : m0.events = f0 :: gs)
    (hlst : d.listCode = .ok lst) :
    test_inst_init d label name fs =
      finishSave name (freshContract label e0.attributes f0.attributes lst)
        fs := by
  simp only [test_inst_init, hload, hs, hq, hlogs, hev, hi, hqi, hlogs2, hev2,
    hlst]

/-- A successful `finishSave` with a name pins the contract, the saved
filesystem, and the call count. -/
theorem finishSave_some (n : String) (contract c : NetContract) (fs fs1 : FS)
    (k : Nat)
    (h : finishSave (some n) contract fs = some (.ok c, fs1, k)) :
    contract = c ∧ save_contract n contract fs = some fs1 ∧ k = 5 := by
  simp only [finishSave] at h
  split at h
  · simp at h
  next fs2 hsave =>
    simp only [Option.some.injEq, Prod.mk.injEq, Except.ok.injEq] at h
    obtain ⟨rfl, rfl, rfl⟩ := h
    exact ⟨rfl, hsave, rfl⟩

/-! ## Claim theorems -/

/-- C1, counterexample: the claim puts the `--keyring-backend <backend>`
pair before the trailing `-y`, but `store_contract` (lines 82-97) pushes the
pair after the `-y` that is already in the base vector; at a concrete input
the built sequence differs from the claimed one. -/
theorem store_contract_args_cx :
    store_contract_args "contract.wasm" none none (some "test") ≠
      ["tx", "compute", "store", "contract.wasm", "--from", "a",
       "--gas", "10000000", "--keyring-backend", "test", "-y",
       "--output", "json"] := by
  decide

/-- C1, amended: for every input tuple, `store_contract` builds the argument
sequence `tx compute store <path> --from <user> --gas <gas> -y
[--keyring-backend <backend>]` plus the appended output-format flag — a
deterministic, order-preserving function of the inputs in which omitting the
backend omits the `--keyring-backend` pair entirely, and a supplied backend
pair appears after the trailing `-y` (and before the appended flag). -/
theorem store_contract_args_spec (contract : String)
    (user gas backend : Option String) :
    store_contract_args contract user gas backend =
      ["tx", "compute", "store", contract, "--from", user.getD "a",
       "--gas", gas.getD "10000000", "-y"]
        ++ (match backend with
            | some b => ["--keyring-backend", b]
            | none => [])
        ++ ["--output", "json"] := by
  cases backend <;>
    simp [store_contract_args, store_contract_command, secretcli_args]

/-- C2: for a command whose invocation yields non-empty stderr on every
attempt, `secretcli_run` re-invokes the process exactly 20 times after the
initial invocation (21 invocations in total), raises no error purely from
exhausting retries, and parses the last invocation's stdout as JSON, the
parse result (`none` being a deserialization error) being the returned
value. -/
theorem secretcli_run_retry_ceiling (invoke : Nat → CmdOutput)
    (parse : String → Option Json)
    (h : ∀ k, (invoke k).stderr ≠ "") :
    secretcli_run invoke parse = (parse (invoke 20).stdout, 21) := by
  unfold secretcli_run
  rw [show (1 : Nat) = 0 + 1 from rfl, retryLoop_all_fail invoke h 20 0]

/-- C2, witness: a daemon that always reports stderr `"busy"` and stdout
`"7"` is invoked 21 times and its final stdout handed to the JSON parser. -/
theorem secretcli_run_retry_ceiling_witness :
    secretcli_run (fun _ => ⟨"7", "busy"⟩) (fun _ => none) = (none, 21) :=
  secretcli_run_retry_ceiling (fun _ => ⟨"7", "busy"⟩) (fun _ => none)
    (by intro k; simp)

/-- C4, counterexample: the claim says `save_contract` never crashes the
caller, but the source calls `File::create(path).unwrap()` (line 587):
on a filesystem where creating the cache file fails, `save_contract`
panics (modelled by `none`). -/
theorem save_contract_panics_cx :
    save_contract "token" ⟨"l", "1", "a", "h"⟩ fsFlaky = none := rfl

/-- C4, amended: failure to create the cache directory (line 584) and
failure while serializing/writing the contract (line 588) are tolerated
silently, but `save_contract` panics — crashing the deployment flow —
exactly when creating the cache file fails. -/
theorem save_contract_panic_iff (name : String) (c : NetContract) (fs : FS) :
    save_contract name c fs = none ↔
      fs.createFileFails (cachePath name) = true := by
  simp only [save_contract, dirEnsured_createFileFails, dirEnsured_writeFails]
  by_cases h : fs.createFileFails (cachePath name) = true
  · simp [h]
  · simp [h]
    split <;> simp

/-- C4, amended witness: at a concrete input the panic occurs exactly
because file creation fails. -/
theorem save_contract_panic_iff_witness :
    save_contract "other" ⟨"l", "1", "a", "h"⟩ fsFlaky = none :=
  (save_contract_panic_iff "other" ⟨"l", "1", "a", "h"⟩ fsFlaky).mpr rfl

/-- C5: round-trip — when saving a `NetContract` under a name succeeds
(the write to the cache path does not fail), loading the same name yields a
contract equal to the original in all four fields. -/
theorem save_load_roundtrip (n : String) (c : NetContract) (fs fsOut : FS)
    (hwf : fs.writeFails (cachePath n) = false)
    (hsave : save_contract n c fs = some fsOut) :
    load_cached_contract (some n) fsOut = .ok c :=
  load_after_save_ok n c fs fsOut hwf hsave

/-- C5, witness: a concrete save on a healthy filesystem loads back the
same contract. -/
theorem save_load_roundtrip_witness :
    load_cached_contract (some "snip20") (saveOkFS fsGood "snip20" cW) =
      .ok cW :=
  save_load_roundtrip "snip20" cW fsGood (saveOkFS fsGood "snip20" cW) rfl rfl

/-- C8: `load_cached_contract none` always fails with the "no cached
contract found" error (line 570), for every filesystem state, and the
`None` arm attempts no file operation (the list of attempted `File::open`
paths is empty). -/
theorem load_none_no_file_op (fs : FS) :
    load_cached_contract none fs = .error .noCachedContract ∧
      load_file_reads none = [] :=
  ⟨rfl, rfl⟩

/-- C9: when every daemon call of the execute-and-resolve flow succeeds and
the fetched `TxQuery`'s raw_log contains `"failed to execute message"`,
`test_contract_handle` propagates no error for that condition: it prints the
diagnostic lines (the second naming the transaction hash) and still returns
both the `TxCompute` and the `TxQuery` results. -/
theorem handle_exec_failure_informational (d : HandleDaemon)
    (tx : TxResponse) (comp : TxCompute) (q : TxQuery)
    (he : d.exec = .ok tx) (hc : d.computeQ tx.txhash = .ok comp)
    (hq : d.queryTx tx.txhash = .ok q)
    (hfail : strContains q.raw_log failMsg = true) :
    test_contract_handle d =
      .ok ((comp, q),
        ["Raw ;pg " ++ q.raw_log,
         "Tx Hash (call secretd q compute tx <hash> to see encrypted error) "
           ++ q.txhash]) := by
  simp [test_contract_handle, he, hc, hq, hfail]

/-- C9, witness: a concrete failing execution is returned, not raised. -/
theorem handle_exec_failure_informational_witness :
    test_contract_handle hdW =
      .ok ((⟨"res"⟩, qFail),
        ["Raw ;pg " ++ qFail.raw_log,
         "Tx Hash (call secretd q compute tx <hash> to see encrypted error) "
           ++ qFail.txhash]) :=
  handle_exec_failure_informational hdW ⟨"HX"⟩ ⟨"res"⟩ qFail rfl rfl rfl
    (by decide)

/-- Destructuring a successful `test_inst_init` run with a cache name: the
result came either from a cache hit (no filesystem change, zero daemon
calls) or from the fresh path followed by a successful save (five daemon
calls). -/
theorem test_inst_init_ok_dest (d : Daemon) (label n : String) (fs fs1 : FS)
    (c : NetContract) (k : Nat)
    (h : test_inst_init d label (some n) fs = some (.ok c, fs1, k)) :
    (load_cached_contract (some n) fs = .ok c ∧ fs1 = fs ∧ k = 0) ∨
      (save_contract n c fs = some fs1 ∧ k = 5) := by
  unfold test_inst_init at h
  split at h
  next c0 heq =>
    simp only [Option.some.injEq, Prod.mk.injEq, Except.ok.injEq] at h
    obtain ⟨rfl, rfl, rfl⟩ := h
    exact Or.inl ⟨heq, rfl, rfl⟩
  next heq =>
    split at h
    · simp at h
    split at h
    · simp at h
    split at h
    · simp at h
    split at h
    · simp at h
    split at h
    · simp at h
    split at h
    · simp at h
    split at h
    · simp at h
    split at h
    · simp at h
    split at h
    · simp at h
    obtain ⟨rfl, hsave, rfl⟩ := finishSave_some _ _ _ _ _ _ h
    exact Or.inr ⟨hsave, rfl⟩

/-- C3: idempotence of the instantiate-and-resolve flow under a cache name —
if a run of `test_inst_init` with name `n` succeeded (on a filesystem whose
cache write for `n` does not fail), running it again on the resulting
filesystem returns the same cached `NetContract` unchanged, leaves the
filesystem untouched, and issues zero daemon invocations. -/
theorem test_inst_init_idempotent (d : Daemon) (label n : String)
    (fs fs1 : FS) (c : NetContract) (k : Nat)
    (hw : fs.writeFails (cachePath n) = false)
    (h : test_inst_init d label (some n) fs = some (.ok c, fs1, k)) :
    test_inst_init d label (some n) fs1 = some (.ok c, fs1, 0) := by
  rcases test_inst_init_ok_dest d label n fs fs1 c k h with
    ⟨hload, rfl, rfl⟩ | ⟨hsave, rfl⟩
  · simp [test_inst_init, hload]
  · have hload2 := load_after_save_ok n c fs fs1 hw hsave
    simp [test_inst_init, hload2]

/-- C3, witness: after a concrete first run that deployed and cached the
contract, a second run returns the cached contract with zero daemon calls. -/
theorem test_inst_init_idempotent_witness :
    test_inst_init dW "lab" (some "nm") (saveOkFS fsGood "nm" cW3) =
      some (.ok cW3, saveOkFS fsGood "nm" cW3, 0) :=
  test_inst_init_idempotent dW "lab" "nm" fsGood (saveOkFS fsGood "nm" cW3)
    cW3 5 rfl rfl

/-- C6: first match wins in the attribute scan — when the cache misses, all
daemon calls succeed, and the store query's `logs[0].events[0].attributes`
begin with `{msg_key:"code_id", value:"7"}` followed by `{msg_key:"other",
value:"x"}` and any further attributes, the instantiate-and-resolve flow
extracts `"7"` as the code id (the scan stops at the first match). -/
theorem code_id_first_match (d : Daemon) (label : String)
    (name : Option String) (fs : FS) (err : LoadErr) (tr : TxResponse)
    (qs : TxQuery) (l0 : Log) (ls : List Log) (e0 : Event) (es : List Event)
    (rest : List Attribute) (ti : TxResponse) (qi : TxQuery) (m0 : Log)
    (ms : List Log) (f0 : Event) (gs : List Event)
    (lst : List ListCodeResponse)
    (hload : load_cached_contract name fs = .error err)
    (hs : d.store = .ok tr) (hq : d.query tr.txhash = .ok qs)
    (hlogs : qs.logs = l0 :: ls) (hev : l0.events = e0 :: es)
    (hattrs : e0.attributes = ⟨"code_id", "7"⟩ :: ⟨"other", "x"⟩ :: rest)
    (hi : d.inst = .ok ti) (hqi : d.query ti.txhash = .ok qi)
    (hlogs2 : qi.logs = m0 :: ms) (hev2 : m0.events = f0 :: gs)
    (hlst : d.listCode = .ok lst)
    (hcf : ∀ p, fs.createFileFails p = false) :
    (test_inst_init d label name fs).map
        (fun r => (Except.map (fun c => c.id) r.1, r.2.2)) =
      some (.ok "7", 5) := by
  rw [test_inst_init_fresh_spec d label name fs err tr qs l0 ls e0 es ti qi
    m0 ms f0 gs lst hload hs hq hlogs hev hi hqi hlogs2 hev2 hlst]
  have hid : (freshContract label e0.attributes f0.attributes lst).id = "7" := by
    simp [freshContract, hattrs, scanAttr]
  cases name with
  | none => simp [finishSave, Except.map, hid]
  | some n =>
    obtain ⟨fs2, hsv⟩ := save_contract_no_panic n
      (freshContract label e0.attributes f0.attributes lst) fs (hcf _)
    simp [finishSave, hsv, Except.map, hid]

/-- C6, witness: a concrete store query carrying both attributes yields the
code id `"7"`. -/
theorem code_id_first_match_witness :
    (test_inst_init dW "lab" (some "cw") fsGood).map
        (fun r => (Except.map (fun c => c.id) r.1, r.2.2)) =
      some (.ok "7", 5) :=
  code_id_first_match dW "lab" (some "cw") fsGood .openFailed ⟨"h1"⟩ storeQW
    ⟨[evW]⟩ [] evW [] [] ⟨"h2"⟩ initQW ⟨[evW2]⟩ [] evW2 [] [⟨7, "HASH7"⟩]
    rfl rfl rfl rfl rfl rfl rfl rfl rfl rfl rfl (fun _ => rfl)

/-- C7: silent no-op on partial population — when the cache misses, all
daemon calls succeed, and neither the store query's first-log-first-event
attributes contain the key `"code_id"` nor the init query's the key
`"contract_address"`, the flow returns successfully with the `id` and
`address` fields left as the initial empty string. -/
theorem missing_key_leaves_empty (d : Daemon) (label : String)
    (name : Option String) (fs : FS) (err : LoadErr) (tr : TxResponse)
    (qs : TxQuery) (l0 : Log) (ls : List Log) (e0 : Event) (es : List Event)
    (ti : TxResponse) (qi : TxQuery) (m0 : Log) (ms : List Log) (f0 : Event)
    (gs : List Event) (lst : List ListCodeResponse)
    (hload : load_cached_contract name fs = .error err)
    (hs : d.store = .ok tr) (hq : d.query tr.txhash = .ok qs)
    (hlogs : qs.logs = l0 :: ls) (hev : l0.events = e0 :: es)
    (hnk : ∀ a ∈ e0.attributes, a.msg_key ≠ "code_id")
    (hi : d.inst = .ok ti) (hqi : d.query ti.txhash = .ok qi)
    (hlogs2 : qi.logs = m0 :: ms) (hev2 : m0.events = f0 :: gs)
    (hnk2 : ∀ a ∈ f0.attributes, a.msg_key ≠ "contract_address")
    (hlst : d.listCode = .ok lst)
    (hcf : ∀ p, fs.createFileFails p = false) :
    (test_inst_init d label name fs).map
        (fun r => (Except.map (fun c => (c.id, c.address)) r.1, r.2.2)) =
      some (.ok ("", ""), 5) := by
  rw [test_inst_init_fresh_spec d label name fs err tr qs l0 ls e0 es ti qi
    m0 ms f0 gs lst hload hs hq hlogs hev hi hqi hlogs2 hev2 hlst]
  have h1 : scanAttr "code_id" "" e0.attributes = "" :=
    scanAttr_not_found _ _ _ hnk
  have h2 : scanAttr "contract_address" "" f0.attributes = "" :=
    scanAttr_not_found _ _ _ hnk2
  cases name with
  | none => simp [finishSave, freshContract, Except.map, h1, h2]
  | some n =>
    obtain ⟨fs2, hsv⟩ := save_contract_no_panic n
      (freshContract label e0.attributes f0.attributes lst) fs (hcf _)
    have ha : (freshContract label e0.attributes f0.attributes lst).id = "" := by
      simp [freshContract, h1]
    have hb : (freshContract label e0.attributes f0.attributes
        lst).address = "" := by
      simp [freshContract, h2]
    simp [finishSave, hsv, Except.map, ha, hb]

/-- C7, witness: a concrete run whose queries report attributes under other
keys returns successfully with empty `id` and `address`. -/
theorem missing_key_leaves_empty_witness :
    (test_inst_init dW7 "lab" none fsGood).map
        (fun r => (Except.map (fun c => (c.id, c.address)) r.1, r.2.2)) =
      some (.ok ("", ""), 5) :=
  missing_key_leaves_empty dW7 "lab" none fsGood .noCachedContract ⟨"h1"⟩
    ⟨"h1", "", [⟨[evN1]⟩]⟩ ⟨[evN1]⟩ [] evN1 [] ⟨"h2"⟩ ⟨"h2", "", [⟨[evN2]⟩]⟩
    ⟨[evN2]⟩ [] evN2 [] [⟨7, "HASH7"⟩]
    rfl rfl rfl rfl rfl (by decide) rfl rfl rfl rfl (by decide) rfl
    (fun _ => rfl)

/-- C10: every failure of `load_cached_contract` — missing file, permission
error, or an unparsable cache file — makes `test_inst_init` fall through to
the full fresh deployment (all five daemon calls, assembling
`freshContract`), and with a name supplied the stale cache file is then
overwritten with the freshly deployed contract's JSON encoding. -/
theorem load_failure_falls_through (d : Daemon) (label n : String) (fs : FS)
    (err : LoadErr) (tr : TxResponse) (qs : TxQuery) (l0 : Log)
    (ls : List Log) (e0 : Event) (es : List Event) (ti : TxResponse)
    (qi : TxQuery) (m0 : Log) (ms : List Log) (f0 : Event) (gs : List Event)
    (lst : List ListCodeResponse)
    (hload : load_cached_contract (some n) fs = .error err)
    (hs : d.store = .ok tr) (hq : d.query tr.txhash = .ok qs)
    (hlogs : qs.logs = l0 :: ls) (hev : l0.events = e0 :: es)
    (hi : d.inst = .ok ti) (hqi : d.query ti.txhash = .ok qi)
    (hlogs2 : qi.logs = m0 :: ms) (hev2 : m0.events = f0 :: gs)
    (hlst : d.listCode = .ok lst)
    (hcf : fs.createFileFails (cachePath n) = false)
    (hwf : fs.writeFails (cachePath n) = false) :
    test_inst_init d label (some n) fs =
        some (.ok (freshContract label e0.attributes f0.attributes lst),
          saveOkFS fs n (freshContract label e0.attributes f0.attributes lst),
          5) ∧
      (saveOkFS fs n
            (freshContract label e0.attributes f0.attributes lst)).files
          (cachePath n) =
        FileData.json (netContractToJson
          (freshContract label e0.attributes f0.attributes lst)) := by
  constructor
  · rw [test_inst_init_fresh_spec d label (some n) fs err tr qs l0 ls e0 es
      ti qi m0 ms f0 gs lst hload hs hq hlogs hev hi hqi hlogs2 hev2 hlst]
    simp [finishSave, save_contract_ok n _ fs hcf hwf]
  · simp [saveOkFS]

/-- C10, witness: a stale, unparsable cache file for name `nm` is ignored,
the fresh deployment runs, and the file is overwritten with the fresh
contract. -/
theorem load_failure_falls_through_witness :
    test_inst_init dW "lab" (some "nm") fsStale =
        some (.ok (freshContract "lab" evW.attributes evW2.attributes
            [⟨7, "HASH7"⟩]),
          saveOkFS fsStale "nm" (freshContract "lab" evW.attributes
            evW2.attributes [⟨7, "HASH7"⟩]), 5) ∧
      (saveOkFS fsStale "nm" (freshContract "lab" evW.attributes
            evW2.attributes [⟨7, "HASH7"⟩])).files (cachePath "nm") =
        FileData.json (netContractToJson (freshContract "lab" evW.attributes
          evW2.attributes [⟨7, "HASH7"⟩])) :=
  load_failure_falls_through dW "lab" "nm" fsStale .parseFailed ⟨"h1"⟩
    storeQW ⟨[evW]⟩ [] evW [] ⟨"h2"⟩ initQW ⟨[evW2]⟩ [] evW2 [] [⟨7, "HASH7"⟩]
    rfl rfl rfl rfl rfl rfl rfl rfl rfl rfl rfl rfl
